import Mathlib

/-
Shallow embedding of sonia/generate.py, the command line script that
generates CDR3 sequences from a V(D)J recombination model, optionally
re-weighted by a Sonia selection model.  The embedding follows the source
of main() statement by statement: option parsing (optparse), the model
source count gate, model folder and recombination type resolution, the
required file existence checks, the olga and Sonia load calls, and the
pre or post generation branch writing either to a file (np.savetxt) or
to stdout (print of the first three record fields).  The sequence
generation engine itself lives in the sonia library outside this
repository and is modelled from the spec where noted.
-/

namespace SoniaGenerate

/-- Recombination type resolved from the command line flags. -/
inductive RecombType where
  | VDJ : RecombType
  | VJ : RecombType
deriving DecidableEq, Repr

/-- Modelled from the spec: a GeneratedSequence record produced by the
sonia library engine (sonia.sequence_generation, not in src).  Per spec
section 3 it holds the nucleotide CDR3, the translated amino acid CDR3,
the V and J gene labels and a productivity flag; the library returns the
four string fields as one row per sequence. -/
structure GeneratedSequence where
  ntseq : String
  aaseq : String
  vGene : String
  jGene : String
  productive : Bool
deriving DecidableEq, Repr

/-- The optparse destination fields of generate.py, with the defaults
declared by the add_option calls (store_true flags default False, folder
and outfile options default None, sonia_model defaults to leftright,
and -n has no default so it is None when absent). -/
structure Options where
  humanTRA : Bool
  humanTRB : Bool
  mouseTRB : Bool
  humanIGH : Bool
  vdj_model_folder : Option String
  vj_model_folder : Option String
  model_type : String
  ppost : Bool
  pgen : Bool
  outfile_name : Option String
  num_seqs_to_generate : Option Int
deriving DecidableEq, Repr

/-- The option values before any command line token is processed. -/
def defaultOptions : Options :=
  { humanTRA := false, humanTRB := false, mouseTRB := false, humanIGH := false,
    vdj_model_folder := none, vj_model_folder := none, model_type := "leftright",
    ppost := false, pgen := false, outfile_name := none, num_seqs_to_generate := none }

/-- Python truthiness of a folder option value: None and the empty
string are falsy, any other string is truthy. -/
def folderSpecified : Option String → Bool
  | none => false
  | some s => s != ""

/-- Embeds the num_models_specified sum at line 185 of generate.py: one
for every truthy value among the four default model flags and the two
custom folder options. -/
def numModelsSpecified (o : Options) : Nat :=
  (if o.humanTRA then 1 else 0) + (if o.humanTRB then 1 else 0)
    + (if o.mouseTRB then 1 else 0) + (if o.humanIGH then 1 else 0)
    + (if folderSpecified o.vj_model_folder then 1 else 0)
    + (if folderSpecified o.vdj_model_folder then 1 else 0)

/-- Prefix test on character lists, used to model the string prefix and
suffix checks performed by os.path.join and optparse. -/
def charsPrefix : List Char → List Char → Bool
  | [], _ => true
  | _ :: _, [] => false
  | a :: as, b :: bs => a == b && charsPrefix as bs

/-- Whether s starts with t. -/
def strStartsWith (s t : String) : Bool := charsPrefix t.data s.data

/-- Whether s ends with t. -/
def strEndsWith (s t : String) : Bool := charsPrefix t.data.reverse s.data.reverse

/-- Take of the first n characters of s. -/
def strTake (s : String) (n : Nat) : String := String.mk (s.data.take n)

/-- Drop of the first n characters of s. -/
def strDrop (s : String) (n : Nat) : String := String.mk (s.data.drop n)

/-- os.path.join for the relative file names used by the script. -/
def pjoin (a b : String) : String :=
  if strEndsWith a "/" then a ++ b else a ++ "/" ++ b

/-- Embeds the model folder and recomb type resolution of lines 187 to
198: the first truthy default model flag in dict insertion order wins
(humanTRA maps to VJ, humanTRB, mouseTRB and humanIGH map to VDJ);
otherwise the custom VDJ folder, otherwise the custom VJ folder.  The
final fallback is unreachable when exactly one model is specified. -/
def modelSelection (main_folder : String) (o : Options) : String × RecombType :=
  if o.humanTRA then
    (pjoin (pjoin main_folder "default_models") "human_T_alpha", RecombType.VJ)
  else if o.humanTRB then
    (pjoin (pjoin main_folder "default_models") "human_T_beta", RecombType.VDJ)
  else if o.mouseTRB then
    (pjoin (pjoin main_folder "default_models") "mouse_T_beta", RecombType.VDJ)
  else if o.humanIGH then
    (pjoin (pjoin main_folder "default_models") "human_B_heavy", RecombType.VDJ)
  else if folderSpecified o.vdj_model_folder then
    (o.vdj_model_folder.getD "", RecombType.VDJ)
  else if folderSpecified o.vj_model_folder then
    (o.vj_model_folder.getD "", RecombType.VJ)
  else
    ("", RecombType.VDJ)

/-- The four required generative model files checked at lines 210 to
220, in the order the source lists them. -/
def requiredFiles (model_folder : String) : List String :=
  [pjoin model_folder "model_params.txt",
   pjoin model_folder "model_marginals.txt",
   pjoin model_folder "V_gene_CDR3_anchors.csv",
   pjoin model_folder "J_gene_CDR3_anchors.csv"]

/-- First file of the list for which os.path.isfile is false, embedding
the for loop at line 215 which returns on the first missing file. -/
def firstMissing (fs : String → Bool) : List String → Option String
  | [] => none
  | x :: xs => if fs x then firstMissing fs xs else some x

/-- Observable model loading steps of main(): the olga genomic data and
generative model loads of lines 224 to 236, and the Sonia selection
model construction of line 245 with its class name and its feature and
log file paths. -/
inductive LoadEvent where
  | genomicVDJ : String → String → String → LoadEvent
  | generativeVDJ : String → LoadEvent
  | genomicVJ : String → String → String → LoadEvent
  | generativeVJ : String → LoadEvent
  | selection : String → String → String → LoadEvent
deriving DecidableEq, Repr

/-- The olga load calls performed for the resolved recombination type:
genomic data from the params and anchor files, then the generative
model from the marginals file. -/
def olgaLoadsOf (model_folder : String) (rt : RecombType) : List LoadEvent :=
  match rt with
  | RecombType.VDJ =>
      [LoadEvent.genomicVDJ (pjoin model_folder "model_params.txt")
          (pjoin model_folder "V_gene_CDR3_anchors.csv")
          (pjoin model_folder "J_gene_CDR3_anchors.csv"),
       LoadEvent.generativeVDJ (pjoin model_folder "model_marginals.txt")]
  | RecombType.VJ =>
      [LoadEvent.genomicVJ (pjoin model_folder "model_params.txt")
          (pjoin model_folder "V_gene_CDR3_anchors.csv")
          (pjoin model_folder "J_gene_CDR3_anchors.csv"),
       LoadEvent.generativeVJ (pjoin model_folder "model_marginals.txt")]

/-- Line 245 of generate.py: the selection model is always constructed
as SoniaLeftposRightpos from features.tsv and log.txt of the model
folder, whatever the sonia_model option says. -/
def selectionLoad (model_folder : String) : LoadEvent :=
  LoadEvent.selection "SoniaLeftposRightpos"
    (pjoin model_folder "features.tsv") (pjoin model_folder "log.txt")

/-- The four field row the sonia engine returns for one generated
sequence, as written by np.savetxt in file mode. -/
def recordRow (s : GeneratedSequence) : List String :=
  [s.ntseq, s.aaseq, s.vGene, s.jGene]

/-- Line 269 of generate.py: print(seq[0], seq[1], seq[2]) joins the
first three row fields with single spaces; the J gene field seq[3] is
not printed. -/
def stdoutLine (s : GeneratedSequence) : String :=
  s.ntseq ++ " " ++ s.aaseq ++ " " ++ s.vGene

/-- Modelled from the spec: SequenceGeneration.generate_sequences_pre of
the sonia library (not in src).  Spec section 4.4: repeatedly invoke the
recombination sampler and keep only productive results until count
accepted sequences are collected, stopping at a bounded number of
attempts.  The draw stream is indexed by attempt number. -/
def generate_sequences_pre (stream : Nat → GeneratedSequence) :
    Nat → Nat → Int → List GeneratedSequence
  | 0, _, _ => []
  | fuel + 1, i, count =>
    if count ≤ 0 then []
    else if (stream i).productive then
      stream i :: generate_sequences_pre stream fuel (i + 1) (count - 1)
    else
      generate_sequences_pre stream fuel (i + 1) count

/-- Modelled from the spec: SequenceGeneration.generate_sequences_post of
the sonia library (not in src).  Spec section 4.4: rejection sampling on
the productive stream; each candidate is accepted with probability
factor over Q, where Q is raised immediately whenever an observed factor
exceeds it (online adaptive policy, one of the two policies the spec
leaves open); attempts are bounded. -/
def generate_sequences_post (stream : Nat → GeneratedSequence)
    (factor : String → String → String → Rat) (uniform : Nat → Rat) :
    Rat → Nat → Nat → Int → List GeneratedSequence
  | _, 0, _, _ => []
  | q, fuel + 1, i, count =>
    if count ≤ 0 then []
    else
      let s := stream i
      if s.productive then
        let f := factor s.aaseq s.vGene s.jGene
        let q2 := if q < f then f else q
        if uniform i * q2 < f then
          s :: generate_sequences_post stream factor uniform q2 fuel (i + 1) (count - 1)
        else
          generate_sequences_post stream factor uniform q2 fuel (i + 1) count
      else
        generate_sequences_post stream factor uniform q fuel (i + 1) count

/-- Collaborator context of one run: the package directory holding the
default models, the file system seen by os.path.isfile, and the sampler
collaborators of the spec modelled engine (draw stream, selection factor
lookup, uniform draws, initial acceptance bound, attempt bound). -/
structure Env where
  main_folder : String
  fs : String → Bool
  stream : Nat → GeneratedSequence
  factor : String → String → String → Rat
  uniform : Nat → Rat
  q0 : Rat
  fuel : Nat

/-- Observable outcome of one main() run: the print() lines in order,
the model load events, the np.savetxt writes, the value returned by
main (some for an explicit return, none when main falls off the end),
and whether an uncaught library exception was raised. -/
structure RunResult where
  messages : List String
  loads : List LoadEvent
  fileWrites : List (String × List (List String))
  retval : Option Int
  exn : Bool
deriving DecidableEq, Repr

/-- Embeds lines 251 to 269: choose the generation mode, pgen first and
ppost only when pgen is false, otherwise print the mode error and
return -1; in file mode the rows go through np.savetxt, in stdout mode
each row prints its first three fields.  Passing num_seqs None to the
library raises, modelled as exn. -/
def generationPhase (o : Options) (env : Env) (loads : List LoadEvent) : RunResult :=
  match o.outfile_name with
  | some path =>
    if o.pgen then
      match o.num_seqs_to_generate with
      | some k =>
          { messages := [], loads := loads,
            fileWrites := [(path, (generate_sequences_pre env.stream env.fuel 0 k).map recordRow)],
            retval := none, exn := false }
      | none => { messages := [], loads := loads, fileWrites := [], retval := none, exn := true }
    else if o.ppost then
      match o.num_seqs_to_generate with
      | some k =>
          { messages := [], loads := loads,
            fileWrites := [(path, (generate_sequences_post env.stream env.factor env.uniform env.q0 env.fuel 0 k).map recordRow)],
            retval := none, exn := false }
      | none => { messages := [], loads := loads, fileWrites := [], retval := none, exn := true }
    else
      { messages := ["ERROR: give option between --pre or --post"],
        loads := loads, fileWrites := [], retval := some (-1), exn := false }
  | none =>
    if o.pgen then
      match o.num_seqs_to_generate with
      | some k =>
          { messages := (generate_sequences_pre env.stream env.fuel 0 k).map stdoutLine,
            loads := loads, fileWrites := [], retval := none, exn := false }
      | none => { messages := [], loads := loads, fileWrites := [], retval := none, exn := true }
    else if o.ppost then
      match o.num_seqs_to_generate with
      | some k =>
          { messages := (generate_sequences_post env.stream env.factor env.uniform env.q0 env.fuel 0 k).map stdoutLine,
            loads := loads, fileWrites := [], retval := none, exn := false }
      | none => { messages := [], loads := loads, fileWrites := [], retval := none, exn := true }
    else
      { messages := ["ERROR: give option between --pre or --post"],
        loads := loads, fileWrites := [], retval := some (-1), exn := false }

/-- Result of an early return for a missing required model file, with
the three printed lines of lines 217 to 219. -/
def missingFileResult (x model_folder : String) : RunResult :=
  { messages := ["Cannot find: " ++ x,
      "Please check the files (and naming conventions) in the model folder " ++ model_folder,
      "Exiting..."],
    loads := [], fileWrites := [], retval := some (-1), exn := false }

/-- Embedding of main() of generate.py on already parsed options: the
model count gate of lines 185 to 206, the file existence loop of lines
210 to 220, the olga loads of lines 224 to 236, the unconditional Sonia
selection model construction of line 245, and the generation branch. -/
def main (o : Options) (env : Env) : RunResult :=
  let n := numModelsSpecified o
  if n = 1 then
    let model_folder := (modelSelection env.main_folder o).1
    let recomb_type := (modelSelection env.main_folder o).2
    match firstMissing env.fs (requiredFiles model_folder) with
    | some x => missingFileResult x model_folder
    | none =>
      generationPhase o env (olgaLoadsOf model_folder recomb_type ++ [selectionLoad model_folder])
  else if n = 0 then
    { messages := ["Need to indicate generative model.", "Exiting..."],
      loads := [], fileWrites := [], retval := some (-1), exn := false }
  else
    { messages := ["Only specify one model", "Exiting..."],
      loads := [], fileWrites := [], retval := some (-1), exn := false }

/-- Embedding of line 271 of generate.py: the value returned by main()
is discarded, so a run in which main returns normally exits the process
with status 0 whatever that value was; only an uncaught exception makes
the interpreter exit nonzero (status 1). -/
def scriptExitStatus (o : Options) (env : Env) : Nat :=
  if (main o env).exn then 1 else 0

/-- The long option strings registered by the add_option calls of lines
160 to 172, together with the --help option that OptionParser adds by
itself.  No --seed, --seq_type, --record_genes_off, --conserved_J_residues,
--seqs_per_time_update, --time_updates_off or delimiter options are
registered, although the module docstring documents them. -/
def longOptionNames : List String :=
  ["--humanTRA", "--human_T_alpha", "--humanTRB", "--human_T_beta",
   "--mouseTRB", "--mouse_T_beta", "--humanIGH", "--human_B_heavy",
   "--set_custom_model_VDJ", "--set_custom_model_VJ", "--sonia_model",
   "--post", "--ppost", "--pre", "--pgen", "--outfile", "--N", "--help"]

/-- optparse long option resolution: an exact match wins, otherwise the
registered options of which the token is a proper abbreviation; an empty
result means no such option. -/
def longCandidates (t : String) : List String :=
  if longOptionNames.contains t then [t]
  else longOptionNames.filter (fun s => strStartsWith s t)

/-- The registered long options that take a value (dest options with no
store_true action). -/
def longTakesValue (name : String) : Bool :=
  name == "--set_custom_model_VDJ" || name == "--set_custom_model_VJ"
    || name == "--sonia_model" || name == "--outfile" || name == "--N"

/-- Store action of a long flag option on the parsed values. -/
def applyLongFlag (name : String) (o : Options) : Options :=
  if name == "--humanTRA" || name == "--human_T_alpha" then { o with humanTRA := true }
  else if name == "--humanTRB" || name == "--human_T_beta" then { o with humanTRB := true }
  else if name == "--mouseTRB" || name == "--mouse_T_beta" then { o with mouseTRB := true }
  else if name == "--humanIGH" || name == "--human_B_heavy" then { o with humanIGH := true }
  else if name == "--post" || name == "--ppost" then { o with ppost := true }
  else if name == "--pre" || name == "--pgen" then { o with pgen := true }
  else o

/-- Decimal digit accumulation for the int conversion of the -n value;
none when a character is not a digit or the digit string is empty. -/
def digitsVal : List Char → Option Nat → Option Nat
  | [], acc => acc
  | c :: cs, acc =>
    if c.isDigit then
      match acc with
      | some n => digitsVal cs (some (n * 10 + (c.toNat - 48)))
      | none => digitsVal cs (some (c.toNat - 48))
    else none

/-- The int conversion optparse applies to the -n value: an optional
sign followed by decimal digits. -/
def strToInt (s : String) : Option Int :=
  match s.data with
  | '-' :: cs => (digitsVal cs none).map (fun n => -(n : Int))
  | '+' :: cs => (digitsVal cs none).map (fun n => (n : Int))
  | cs => (digitsVal cs none).map (fun n => (n : Int))

/-- Store action of a value taking option; none signals a failed int
conversion for the -n count. -/
def applyLongValue (name v : String) (o : Options) : Option Options :=
  if name == "--set_custom_model_VDJ" then some { o with vdj_model_folder := some v }
  else if name == "--set_custom_model_VJ" then some { o with vj_model_folder := some v }
  else if name == "--sonia_model" then some { o with model_type := v }
  else if name == "--outfile" then some { o with outfile_name := some v }
  else if name == "--N" then
    match strToInt v with
    | some k => some { o with num_seqs_to_generate := some k }
    | none => none
  else some o

/-- Outcome of OptionParser.parse_args: parsed values plus positional
arguments, a usage error (parser.error prints the message and exits the
process with status 2), or the help exit. -/
inductive ParseResult where
  | ok : Options → List String → ParseResult
  | usageError : String → ParseResult
  | helpExit : ParseResult
deriving DecidableEq, Repr

/-- Splits a character list at its first equals sign. -/
def breakAtEq : List Char → Option (List Char × List Char)
  | [] => none
  | c :: cs =>
    if c == '=' then some ([], cs)
    else
      match breakAtEq cs with
      | some (a, b) => some (c :: a, b)
      | none => none

/-- Splits a long token at its first equals sign, as optparse does for
the --opt=value form. -/
def splitLongOpt (tok : String) : String × Option String :=
  match breakAtEq tok.data with
  | some (a, b) => (String.mk a, some (String.mk b))
  | none => (tok, none)

/-- Model of the OptionParser token loop over the registered options of
generate.py: long tokens resolve through longCandidates, the short
options -h, -o and -n behave as registered, every other dashed token is
a usage error, and other tokens are positional. -/
def parseTokens : List String → Options → ParseResult
  | [], o => ParseResult.ok o []
  | tok :: rest, o =>
    if tok == "--" then ParseResult.ok o rest
    else if strStartsWith tok "--" then
      let t := (splitLongOpt tok).1
      let attached := (splitLongOpt tok).2
      match longCandidates t with
      | [] => ParseResult.usageError ("no such option: " ++ t)
      | [name] =>
        if name == "--help" then ParseResult.helpExit
        else if longTakesValue name then
          match attached with
          | some v =>
            match applyLongValue name v o with
            | some o2 => parseTokens rest o2
            | none => ParseResult.usageError ("option " ++ name ++ ": invalid integer value")
          | none =>
            match rest with
            | [] => ParseResult.usageError (name ++ " option requires an argument")
            | v :: rest2 =>
              match applyLongValue name v o with
              | some o2 => parseTokens rest2 o2
              | none => ParseResult.usageError ("option " ++ name ++ ": invalid integer value")
        else
          match attached with
          | some _ => ParseResult.usageError (name ++ " option does not take a value")
          | none => parseTokens rest (applyLongFlag name o)
      | _ => ParseResult.usageError ("ambiguous option: " ++ t)
    else if strStartsWith tok "-" && tok != "-" then
      let c := strTake tok 2
      let attached := strDrop tok 2
      if c == "-h" then ParseResult.helpExit
      else if c == "-o" || c == "-n" then
        let name := if c == "-o" then "--outfile" else "--N"
        if attached != "" then
          match applyLongValue name attached o with
          | some o2 => parseTokens rest o2
          | none => ParseResult.usageError ("option " ++ c ++ ": invalid integer value")
        else
          match rest with
          | [] => ParseResult.usageError (c ++ " option requires an argument")
          | v :: rest2 =>
            match applyLongValue name v o with
            | some o2 => parseTokens rest2 o2
            | none => ParseResult.usageError ("option " ++ c ++ ": invalid integer value")
      else ParseResult.usageError ("no such option: " ++ c)
    else parseTokens rest o

/-- Exit status of one whole script invocation from raw argv tokens: a
parse_args usage error exits 2, help exits 0, and otherwise the value
main returns is discarded as at line 271. -/
def scriptRun (argv : List String) (env : Env) : Nat :=
  match parseTokens argv defaultOptions with
  | ParseResult.usageError _ => 2
  | ParseResult.helpExit => 0
  | ParseResult.ok o _ => scriptExitStatus o env

/-- A concrete productive draw used by the closed test runs. -/
def testSeq : GeneratedSequence :=
  { ntseq := "TGTGCC", aaseq := "CA", vGene := "V1", jGene := "J1", productive := true }

/-- A concrete collaborator context for the closed test runs: every file
exists, every draw is the same productive sequence, every selection
factor is 1 and every uniform draw is 0. -/
def testEnv : Env :=
  { main_folder := "sonia", fs := fun _ => true, stream := fun _ => testSeq,
    factor := fun _ _ _ => 1, uniform := fun _ => 0, q0 := 1, fuel := 8 }

/-- An invocation that names no generative model. -/
def optsNoModel : Options :=
  { defaultOptions with num_seqs_to_generate := some 10 }

/-- An invocation that names two generative models. -/
def optsTwoModels : Options :=
  { defaultOptions with humanTRA := true, humanTRB := true }

/-- A pre selection stdout invocation of the human TRB model. -/
def optsPre : Options :=
  { defaultOptions with humanTRB := true, pgen := true, num_seqs_to_generate := some 1 }

/-- The same invocation with both generation modes requested. -/
def optsBothModes : Options :=
  { optsPre with ppost := true }

/-- A post selection file invocation of the human TRB model. -/
def optsPost : Options :=
  { defaultOptions with
      humanTRB := true
      ppost := true
      num_seqs_to_generate := some 1
      outfile_name := some "example_seqs.tsv" }

/-- A human TRB invocation that requests neither generation mode. -/
def optsNoMode : Options :=
  { optsPre with pgen := false }

/-- Both modes requested, writing to a file. -/
def optsBothFile : Options :=
  { optsBothModes with outfile_name := some "out.tsv" }

/-- The test context with the marginals file of the human TRB model
absent from the file system. -/
def testEnvNoMarginals : Env :=
  { testEnv with
      fs := fun s => s != "sonia/default_models/human_T_beta/model_marginals.txt" }

/-- The generation phase never changes the list of load events it is
handed: every branch of lines 251 to 269 runs after all loading. -/
theorem generationPhase_loads (o : Options) (env : Env) (L : List LoadEvent) :
    (generationPhase o env L).loads = L := by
  unfold generationPhase
  repeat' split
  all_goals rfl

/-- Lines 199 to 202: with no model specified, main prints the two
lines and returns -1 before touching any file. -/
theorem main_noModel (o : Options) (env : Env) (h : numModelsSpecified o = 0) :
    main o env
      = { messages := ["Need to indicate generative model.", "Exiting..."],
          loads := [], fileWrites := [], retval := some (-1), exn := false } := by
  simp [main, h]

/-- Lines 203 to 206: with more than one model specified, main prints
the two lines and returns -1 before touching any file. -/
theorem main_multiModel (o : Options) (env : Env) (h : 2 ≤ numModelsSpecified o) :
    main o env
      = { messages := ["Only specify one model", "Exiting..."],
          loads := [], fileWrites := [], retval := some (-1), exn := false } := by
  have h1 : ¬ numModelsSpecified o = 1 := by omega
  have h0 : ¬ numModelsSpecified o = 0 := by omega
  simp [main, h1, h0]

/-- Lines 215 to 220: with exactly one model and a missing required
file, main stops at the first missing file before any load. -/
theorem main_missing (o : Options) (env : Env) (x : String)
    (h1 : numModelsSpecified o = 1)
    (h2 : firstMissing env.fs (requiredFiles (modelSelection env.main_folder o).1) = some x) :
    main o env = missingFileResult x (modelSelection env.main_folder o).1 := by
  simp [main, h1, h2]

/-- With exactly one model and all required files present, main loads
the olga model for the resolved type, then the Sonia selection model,
and runs the generation phase. -/
theorem main_loaded (o : Options) (env : Env)
    (h1 : numModelsSpecified o = 1)
    (h2 : firstMissing env.fs (requiredFiles (modelSelection env.main_folder o).1) = none) :
    main o env
      = generationPhase o env
          (olgaLoadsOf (modelSelection env.main_folder o).1 (modelSelection env.main_folder o).2
            ++ [selectionLoad (modelSelection env.main_folder o).1]) := by
  simp [main, h1, h2]

/-- A request for zero sequences collects nothing in pre mode. -/
theorem generate_sequences_pre_zero (stream : Nat → GeneratedSequence) (fuel i : Nat) :
    generate_sequences_pre stream fuel i 0 = [] := by
  cases fuel <;> simp [generate_sequences_pre]

/-- A request for zero sequences collects nothing in post mode. -/
theorem generate_sequences_post_zero (stream : Nat → GeneratedSequence)
    (factor : String → String → String → Rat) (uniform : Nat → Rat)
    (q : Rat) (fuel i : Nat) :
    generate_sequences_post stream factor uniform q fuel i 0 = [] := by
  cases fuel <;> simp [generate_sequences_post]

/-- C4: specifying zero generative model sources, or more than one among
the four built in model flags and the two custom folder options, makes
main print a message and return -1 before loading any model or sampling,
and model loading happens only when exactly one source is specified. -/
theorem c4_single_model_gate (o : Options) (env : Env) :
    (numModelsSpecified o = 0 →
        main o env
          = { messages := ["Need to indicate generative model.", "Exiting..."],
              loads := [], fileWrites := [], retval := some (-1), exn := false })
    ∧ (2 ≤ numModelsSpecified o →
        main o env
          = { messages := ["Only specify one model", "Exiting..."],
              loads := [], fileWrites := [], retval := some (-1), exn := false })
    ∧ ((main o env).loads ≠ [] → numModelsSpecified o = 1) := by
  refine ⟨main_noModel o env, main_multiModel o env, ?_⟩
  intro hL
  by_contra hne
  rcases Nat.lt_or_ge (numModelsSpecified o) 1 with h | h
  · rw [main_noModel o env (by omega)] at hL
    simp at hL
  · rw [main_multiModel o env (by omega)] at hL
    simp at hL

/-- C4 witness: the zero model and two model invocations hit the two
error returns. -/
theorem c4_single_model_gate_witness :
    main optsNoModel testEnv
      = { messages := ["Need to indicate generative model.", "Exiting..."],
          loads := [], fileWrites := [], retval := some (-1), exn := false }
    ∧ main optsTwoModels testEnv
      = { messages := ["Only specify one model", "Exiting..."],
          loads := [], fileWrites := [], retval := some (-1), exn := false } :=
  ⟨(c4_single_model_gate optsNoModel testEnv).1 (by decide),
   (c4_single_model_gate optsTwoModels testEnv).2.1 (by decide)⟩

/-- C5: configuration errors and missing required model files abort the
run before any model load, with the messages naming the problem, and
with no file write or printed sequence, so no partial output. -/
theorem c5_eager_error_detection (o : Options) (env : Env) (x : String) :
    (numModelsSpecified o ≠ 1 →
        (main o env).loads = [] ∧ (main o env).fileWrites = []
          ∧ (main o env).retval = some (-1))
    ∧ (numModelsSpecified o = 1 →
        firstMissing env.fs (requiredFiles (modelSelection env.main_folder o).1) = some x →
        main o env = missingFileResult x (modelSelection env.main_folder o).1) := by
  constructor
  · intro hne
    rcases Nat.lt_or_ge (numModelsSpecified o) 1 with h | h
    · rw [main_noModel o env (by omega)]
      exact ⟨rfl, rfl, rfl⟩
    · rw [main_multiModel o env (by omega)]
      exact ⟨rfl, rfl, rfl⟩
  · exact main_missing o env x

/-- C5 witness: a run with no model aborts with no loads, and a human
TRB run with the marginals file absent aborts naming that file. -/
theorem c5_eager_error_detection_witness :
    ((main optsNoModel testEnv).loads = [] ∧ (main optsNoModel testEnv).fileWrites = []
      ∧ (main optsNoModel testEnv).retval = some (-1))
    ∧ main optsPre testEnvNoMarginals
        = missingFileResult "sonia/default_models/human_T_beta/model_marginals.txt"
            "sonia/default_models/human_T_beta" :=
  ⟨(c5_eager_error_detection optsNoModel testEnv "").1 (by decide),
   (c5_eager_error_detection optsPre testEnvNoMarginals
      "sonia/default_models/human_T_beta/model_marginals.txt").2 (by decide) (by decide)⟩

/-- C2: code bug evidence.  On a configuration error or a missing model
file, main prints the descriptive message and returns the error value
-1, but the entry line discards that value, so the process exit status
is 0, not the nonzero error status the claim requires. -/
theorem c2_error_exit_status_zero :
    main optsNoModel testEnv
      = { messages := ["Need to indicate generative model.", "Exiting..."],
          loads := [], fileWrites := [], retval := some (-1), exn := false }
    ∧ scriptExitStatus optsNoModel testEnv = 0
    ∧ main optsPre testEnvNoMarginals
        = missingFileResult "sonia/default_models/human_T_beta/model_marginals.txt"
            "sonia/default_models/human_T_beta"
    ∧ scriptExitStatus optsPre testEnvNoMarginals = 0 := by
  refine ⟨by decide, by decide, by decide, by decide⟩

/-- C3: code bug evidence.  The parser registers no seed option at all,
although the module docstring documents one, so an invocation passing a
seed aborts in parse_args with a usage error (process exit status 2)
and never reaches generation; no seed control exists. -/
theorem c3_no_seed_option :
    longCandidates "--seed" = []
    ∧ parseTokens ["--humanTRB", "-n", "5", "--seed", "42"] defaultOptions
        = ParseResult.usageError "no such option: --seed"
    ∧ scriptRun ["--humanTRB", "-n", "5", "--seed", "42"] testEnv = 2 := by
  refine ⟨by decide, by decide, by decide⟩

/-- C1 counterexample: an invocation specifying both --pre and --post is
processed (in pre mode, returning normally and printing a generated
sequence), so processing is not restricted to invocations with exactly
one of the two modes. -/
theorem c1_both_modes_processed :
    optsBothModes.pgen = true ∧ optsBothModes.ppost = true
    ∧ (main optsBothModes testEnv).retval = none
    ∧ (main optsBothModes testEnv).messages = ["TGTGCC CA V1"] := by
  exact ⟨rfl, rfl, by decide, by decide⟩

/-- C1 amended: if neither --pre nor --post is given the run reports the
mode error, returns -1 and produces no output; a run is processed
whenever at least one mode is given, with --pre taking precedence over
--post when both are given. -/
theorem c1_mode_selection (o : Options) (env : Env)
    (h1 : numModelsSpecified o = 1)
    (h2 : firstMissing env.fs (requiredFiles (modelSelection env.main_folder o).1) = none) :
    (o.pgen = false → o.ppost = false →
        (main o env).retval = some (-1)
        ∧ (main o env).messages = ["ERROR: give option between --pre or --post"]
        ∧ (main o env).fileWrites = [])
    ∧ (o.pgen = true → (main o env).retval ≠ some (-1))
    ∧ (o.ppost = true → (main o env).retval ≠ some (-1))
    ∧ (o.pgen = true → ∀ p k, o.outfile_name = some p →
        o.num_seqs_to_generate = some k →
        (main o env).fileWrites
          = [(p, (generate_sequences_pre env.stream env.fuel 0 k).map recordRow)]) := by
  rw [main_loaded o env h1 h2]
  refine ⟨?_, ?_, ?_, ?_⟩
  · intro hg hp
    cases ho : o.outfile_name <;> simp [generationPhase, ho, hg, hp]
  · intro hg
    cases ho : o.outfile_name <;> cases hk : o.num_seqs_to_generate <;>
      simp [generationPhase, ho, hg, hk]
  · intro hp
    cases hg : o.pgen <;> cases ho : o.outfile_name <;> cases hk : o.num_seqs_to_generate <;>
      simp [generationPhase, ho, hg, hp, hk]
  · intro hg p k hp hk
    simp [generationPhase, hp, hg, hk]

/-- C1 witness: the no mode run errors with no output, the pre run is
processed, and the both modes file run writes the pre records. -/
theorem c1_mode_selection_witness :
    ((main optsNoMode testEnv).retval = some (-1)
      ∧ (main optsNoMode testEnv).messages = ["ERROR: give option between --pre or --post"]
      ∧ (main optsNoMode testEnv).fileWrites = [])
    ∧ (main optsPre testEnv).retval ≠ some (-1)
    ∧ (main optsPost testEnv).retval ≠ some (-1)
    ∧ (main optsBothFile testEnv).fileWrites
        = [("out.tsv", (generate_sequences_pre testEnv.stream testEnv.fuel 0 1).map recordRow)] :=
  ⟨(c1_mode_selection optsNoMode testEnv (by decide) (by decide)).1 rfl rfl,
   (c1_mode_selection optsPre testEnv (by decide) (by decide)).2.1 rfl,
   (c1_mode_selection optsPost testEnv (by decide) (by decide)).2.2.1 rfl,
   (c1_mode_selection optsBothFile testEnv (by decide) (by decide)).2.2.2 rfl "out.tsv" 1 rfl rfl⟩

/-- C6 counterexample: a run requesting only pre selection still loads
the selection model file pair, contradicting the claim that a pre
selection run does not require or load them. -/
theorem c6_pre_run_loads_selection :
    optsPre.pgen = true ∧ optsPre.ppost = false
    ∧ LoadEvent.selection "SoniaLeftposRightpos"
        "sonia/default_models/human_T_beta/features.tsv"
        "sonia/default_models/human_T_beta/log.txt" ∈ (main optsPre testEnv).loads := by
  exact ⟨rfl, rfl, by decide⟩

/-- C6 amended: the selection model feature and log file pair is loaded
unconditionally once the generative model files pass the existence
check, in pre selection mode just as in post selection mode. -/
theorem c6_selection_always_loaded (o : Options) (env : Env)
    (h1 : numModelsSpecified o = 1)
    (h2 : firstMissing env.fs (requiredFiles (modelSelection env.main_folder o).1) = none) :
    selectionLoad (modelSelection env.main_folder o).1 ∈ (main o env).loads := by
  rw [main_loaded o env h1 h2]
  rw [generationPhase_loads]
  simp

/-- C6 witness: the pre selection test run contains the selection load
event. -/
theorem c6_selection_always_loaded_witness :
    selectionLoad (modelSelection testEnv.main_folder optsPre).1 ∈ (main optsPre testEnv).loads :=
  c6_selection_always_loaded optsPre testEnv (by decide) (by decide)

/-- C7: under exactly one model source the recombination type follows
the flag alone: humanTRA gives VJ, humanTRB, mouseTRB and humanIGH give
VDJ, the custom VDJ folder gives VDJ and the custom VJ folder gives VJ,
and the resolution is the same in any context with the same package
directory, whatever its file system and model file contents. -/
theorem c7_recomb_type_from_flags (o : Options) (env : Env)
    (h1 : numModelsSpecified o = 1) :
    (o.humanTRA = true → (modelSelection env.main_folder o).2 = RecombType.VJ)
    ∧ (o.humanTRB = true → (modelSelection env.main_folder o).2 = RecombType.VDJ)
    ∧ (o.mouseTRB = true → (modelSelection env.main_folder o).2 = RecombType.VDJ)
    ∧ (o.humanIGH = true → (modelSelection env.main_folder o).2 = RecombType.VDJ)
    ∧ (folderSpecified o.vdj_model_folder = true →
        (modelSelection env.main_folder o).2 = RecombType.VDJ)
    ∧ (folderSpecified o.vj_model_folder = true →
        (modelSelection env.main_folder o).2 = RecombType.VJ)
    ∧ (∀ env2 : Env, env2.main_folder = env.main_folder →
        modelSelection env2.main_folder o = modelSelection env.main_folder o) := by
  refine ⟨?_, ?_, ?_, ?_, ?_, ?_, fun env2 h => by rw [h]⟩ <;>
  · intro hflag
    cases hA : o.humanTRA <;> cases hB : o.humanTRB <;> cases hC : o.mouseTRB <;>
      cases hD : o.humanIGH <;> cases hE : folderSpecified o.vdj_model_folder <;>
      cases hF : folderSpecified o.vj_model_folder <;>
      simp_all [numModelsSpecified, modelSelection]

/-- C7 witness: the humanTRB flag resolves to the VDJ type. -/
theorem c7_recomb_type_from_flags_witness :
    (modelSelection testEnv.main_folder optsPre).2 = RecombType.VDJ :=
  (c7_recomb_type_from_flags optsPre testEnv (by decide)).2.1 rfl

/-- C8 counterexample: a stdout run prints for the generated sequence
with J gene label J1 only the nucleotide, amino acid and V fields; the
printed record does not contain the J gene label, and no toggle exists
to change that. -/
theorem c8_stdout_omits_j_gene :
    (main optsPre testEnv).messages = ["TGTGCC CA V1"]
    ∧ (testEnv.stream 0).jGene = "J1"
    ∧ ("J1" ∈ ["TGTGCC", "CA", "V1"] → False) := by
  exact ⟨by decide, rfl, by decide⟩

/-- C8 amended: records written to a file hold all four fields in order
nucleotide CDR3, amino acid CDR3, V gene, J gene; records printed to
stdout hold only the first three, dropping the J gene; the script has
no configuration toggles for sequence type or gene recording. -/
theorem c8_output_records (o : Options) (env : Env) (k : Int) (p : String)
    (h1 : numModelsSpecified o = 1)
    (h2 : firstMissing env.fs (requiredFiles (modelSelection env.main_folder o).1) = none)
    (hk : o.num_seqs_to_generate = some k) :
    (o.pgen = true → o.outfile_name = some p →
        (main o env).fileWrites
            = [(p, (generate_sequences_pre env.stream env.fuel 0 k).map recordRow)]
          ∧ (main o env).messages = [])
    ∧ (o.pgen = true → o.outfile_name = none →
        (main o env).messages = (generate_sequences_pre env.stream env.fuel 0 k).map stdoutLine
          ∧ (main o env).fileWrites = [])
    ∧ (o.pgen = false → o.ppost = true → o.outfile_name = some p →
        (main o env).fileWrites
            = [(p, (generate_sequences_post env.stream env.factor env.uniform
                      env.q0 env.fuel 0 k).map recordRow)]
          ∧ (main o env).messages = [])
    ∧ (o.pgen = false → o.ppost = true → o.outfile_name = none →
        (main o env).messages
            = (generate_sequences_post env.stream env.factor env.uniform
                env.q0 env.fuel 0 k).map stdoutLine
          ∧ (main o env).fileWrites = [])
    ∧ (∀ s, recordRow s = [s.ntseq, s.aaseq, s.vGene, s.jGene])
    ∧ (∀ s, stdoutLine s = s.ntseq ++ " " ++ s.aaseq ++ " " ++ s.vGene) := by
  rw [main_loaded o env h1 h2]
  refine ⟨?_, ?_, ?_, ?_, fun s => rfl, fun s => rfl⟩
  · intro hg ho
    simp [generationPhase, ho, hg, hk]
  · intro hg ho
    simp [generationPhase, ho, hg, hk]
  · intro hg hp ho
    simp [generationPhase, ho, hg, hp, hk]
  · intro hg hp ho
    simp [generationPhase, ho, hg, hp, hk]

/-- C8 witness: the post file run writes the full four field record and
the pre stdout run prints the three field lines. -/
theorem c8_output_records_witness :
    ((main optsPost testEnv).fileWrites
        = [("example_seqs.tsv",
            (generate_sequences_post testEnv.stream testEnv.factor testEnv.uniform
              testEnv.q0 testEnv.fuel 0 1).map recordRow)]
      ∧ (main optsPost testEnv).messages = [])
    ∧ ((main optsPre testEnv).messages
        = (generate_sequences_pre testEnv.stream testEnv.fuel 0 1).map stdoutLine
      ∧ (main optsPre testEnv).fileWrites = []) :=
  ⟨(c8_output_records optsPost testEnv 1 "example_seqs.tsv"
      (by decide) (by decide) rfl).2.2.1 rfl rfl rfl,
   (c8_output_records optsPre testEnv 1 "unused"
      (by decide) (by decide) rfl).2.1 rfl rfl⟩

/-- C9: with a requested count of zero, a run in either generation mode
returns normally and produces an empty result: an empty record list in
file mode and no printed lines in stdout mode. -/
theorem c9_zero_count (o : Options) (env : Env)
    (h1 : numModelsSpecified o = 1)
    (h2 : firstMissing env.fs (requiredFiles (modelSelection env.main_folder o).1) = none)
    (h0 : o.num_seqs_to_generate = some 0)
    (hmode : o.pgen = true ∨ o.ppost = true) :
    (main o env).retval = none ∧ (main o env).exn = false
    ∧ (∀ p, o.outfile_name = some p → (main o env).fileWrites = [(p, [])])
    ∧ (o.outfile_name = none → (main o env).messages = []) := by
  rw [main_loaded o env h1 h2]
  cases hg : o.pgen with
  | true =>
    cases ho : o.outfile_name <;>
      simp [generationPhase, ho, hg, h0, generate_sequences_pre_zero]
  | false =>
    have hp : o.ppost = true := by
      rcases hmode with h | h
      · rw [hg] at h; cases h
      · exact h
    cases ho : o.outfile_name <;>
      simp [generationPhase, ho, hg, hp, h0, generate_sequences_post_zero]

/-- C9 witness: zero count pre stdout and post file runs return
normally with empty output. -/
theorem c9_zero_count_witness :
    ((main { optsPre with num_seqs_to_generate := some 0 } testEnv).retval = none
      ∧ (main { optsPre with num_seqs_to_generate := some 0 } testEnv).messages = [])
    ∧ (main { optsPost with num_seqs_to_generate := some 0 } testEnv).fileWrites
        = [("example_seqs.tsv", [])] :=
  ⟨⟨(c9_zero_count { optsPre with num_seqs_to_generate := some 0 } testEnv
        (by decide) (by decide) rfl (Or.inl rfl)).1,
    (c9_zero_count { optsPre with num_seqs_to_generate := some 0 } testEnv
        (by decide) (by decide) rfl (Or.inl rfl)).2.2.2 rfl⟩,
   (c9_zero_count { optsPost with num_seqs_to_generate := some 0 } testEnv
        (by decide) (by decide) rfl (Or.inr rfl)).2.2.1 "example_seqs.tsv" rfl⟩

/-- C10: the sonia_model option value is parsed but never read: two runs
differing only in it produce identical results, and every selection
model load is the SoniaLeftposRightpos variant. -/
theorem c10_sonia_model_option_ignored (o : Options) (env : Env) (s1 s2 v f l : String)
    (hmem : LoadEvent.selection v f l ∈ (main o env).loads) :
    main { o with model_type := s1 } env = main { o with model_type := s2 } env
    ∧ v = "SoniaLeftposRightpos" := by
  constructor
  · cases o
    rfl
  · by_cases h1 : numModelsSpecified o = 1
    · cases hm : firstMissing env.fs (requiredFiles (modelSelection env.main_folder o).1) with
      | some x =>
        rw [main_missing o env x h1 hm] at hmem
        simp [missingFileResult] at hmem
      | none =>
        rw [main_loaded o env h1 hm, generationPhase_loads] at hmem
        rcases List.mem_append.mp hmem with h | h
        · cases ht : (modelSelection env.main_folder o).2 <;>
            rw [ht] at h <;> simp [olgaLoadsOf] at h
        · simp [selectionLoad] at h
          exact h.1
    · rcases Nat.lt_or_ge (numModelsSpecified o) 1 with h | h
      · rw [main_noModel o env (by omega)] at hmem
        simp at hmem
      · rw [main_multiModel o env (by omega)] at hmem
        simp at hmem

/-- C10 witness: applied to the pre test run and its selection load
event. -/
theorem c10_sonia_model_option_ignored_witness :
    main { optsPre with model_type := "lengthpos" } testEnv
        = main { optsPre with model_type := "leftright" } testEnv
    ∧ "SoniaLeftposRightpos" = "SoniaLeftposRightpos" :=
  c10_sonia_model_option_ignored optsPre testEnv "lengthpos" "leftright"
    "SoniaLeftposRightpos"
    "sonia/default_models/human_T_beta/features.tsv"
    "sonia/default_models/human_T_beta/log.txt" (by decide)

end SoniaGenerate
